import Mathlib

/-!
Shallow embedding of the QR-mapping persistence and resolution layer of the
JALSASALANAMANAGER event check-in application (src/lib/export.ts, together
with the qr_mappings schema from src/scripts/create-qr-mappings.sql).

The stateful TypeScript functions are embedded as pure state-passing Lean
functions.  Remote (Supabase) call outcomes are supplied by explicit oracles:
a write oracle `Nat → Option SupaError` gives the outcome of the n-th upsert
attempt (`none` = success), and a read outcome `Option SupaError` says whether
the remote select failed.  Delays (`setTimeout`) are recorded as trace data
(lists of milliseconds) rather than executed.
-/

/-- A Supabase/PostgREST error object: the fields `code` and `message`
inspected by the retry classification in persistQRMappingToSupabase. -/
structure SupaError where
  code : String
  message : String
deriving Repr, DecidableEq

/-- A row of the remote `qr_mappings` table.  Per
src/scripts/create-qr-mappings.sql the table is
`qr_code_id TEXT PRIMARY KEY, member_id UUID NOT NULL, event_id UUID` —
note the primary key is `qr_code_id` alone, and `event_id` is nullable
(modelled as `Option String`). -/
structure RemoteRow where
  qr_code_id : String
  member_id : String
  event_id : Option String
deriving Repr, DecidableEq

/-- A tajneed member record (src/lib/types.ts shape used by export.ts). -/
structure TajneedMember where
  id : String
  eventId : String
  fullName : String
  tanzeem : String
  region : String
  jamaat : String
  createdAt : String
deriving Repr, DecidableEq

/-- The device-visible state: the module-level current event id (empty string
when unset, matching getCurrentEventId's final `return ""`), the localStorage
object under key "qr_code_member_mapping", the remote qr_mappings table, the
tajneed members table, and whether Supabase is configured. -/
structure AppState where
  supabaseConfigured : Bool
  currentEventId : String
  localMappings : List (String × String)
  remote : List RemoteRow
  members : List TajneedMember
deriving Repr, DecidableEq

/-- getCurrentEventId: returns the module-level current event id, or the
empty string when no event is selected (export.ts lines 1517-1535). -/
def getCurrentEventId (st : AppState) : String :=
  st.currentEventId

/-- Character-list prefix test (helper for the substring test below). -/
def prefixOf : List Char → List Char → Bool
  | [], _ => true
  | _ :: _, [] => false
  | a :: as, b :: bs => a == b && prefixOf as bs

/-- Character-list substring test (helper for strIncludes). -/
def subOf (pat : List Char) : List Char → Bool
  | [] => prefixOf pat []
  | c :: cs => prefixOf pat (c :: cs) || subOf pat cs

/-- JavaScript `s.includes(pat)`. -/
def strIncludes (s pat : String) : Bool :=
  subOf pat.data s.data

/-- The retryable-error classification of persistQRMappingToSupabase
(export.ts lines 1827-1833): codes PGRST301 and 42P01, or a message
containing "connection", "timeout" or "temporarily unavailable". -/
def isRetryableError (e : SupaError) : Bool :=
  e.code == "PGRST301" ||
  e.code == "42P01" ||
  strIncludes e.message "connection" ||
  strIncludes e.message "timeout" ||
  strIncludes e.message "temporarily unavailable"

/-- JavaScript `eventId || null` in the upsert payload (export.ts line 1814):
the empty string is falsy, so it is stored as NULL. -/
def eventIdOrNull (eventId : String) : Option String :=
  if eventId == "" then none else some eventId

/-- The effect of `.upsert(payload, onConflict qr_code_id)` on the table
state: replace the row with the same qr_code_id if present, else insert.
The conflict target is qr_code_id ALONE (export.ts line 1823), matching the
table's primary key. -/
def upsertQrMapping (rows : List RemoteRow) (row : RemoteRow) : List RemoteRow :=
  if rows.any (fun r => r.qr_code_id == row.qr_code_id) then
    rows.map (fun r => if r.qr_code_id == row.qr_code_id then row else r)
  else
    rows ++ [row]

/-- export.ts line 1800: `const MAX_ATTEMPTS = 3`. -/
def MAX_ATTEMPTS : Nat := 3

/-- export.ts line 1801: `const BASE_DELAY = 100`. -/
def BASE_DELAY : Nat := 100

/-- Result of one run of persistQRMappingToSupabase: the final remote table,
whether the promise resolved (ok) or rejected (the function throws on a
terminal error or on exhausting retries), the number of upsert attempts
performed, and the backoff delays slept, in order. -/
structure PersistResult where
  remote : List RemoteRow
  ok : Bool
  attempts : Nat
  delays : List Nat
deriving Repr, DecidableEq

/-- The recursion of persistQRMappingToSupabase (export.ts lines 1799-1847).
The source recurses with `attempt + 1` while `attempt < MAX_ATTEMPTS`; here
the same loop is driven structurally by `remaining = MAX_ATTEMPTS - attempt`,
so `remaining > 0` is exactly `attempt < MAX_ATTEMPTS`.  On success the upsert
took effect; on a retryable error with attempts left it sleeps
`BASE_DELAY * 2 ^ (attempt - 1)` ms and recurses; otherwise it throws
(ok := false), leaving the table unchanged. -/
def persistGo (oracle : Nat → Option SupaError) (qrCodeId memberId : String)
    (eventId : String) : Nat → Nat → List RemoteRow → PersistResult
  | 0, attempt, remote =>
    match oracle attempt with
    | none =>
      { remote := upsertQrMapping remote ⟨qrCodeId, memberId, eventIdOrNull eventId⟩,
        ok := true, attempts := 1, delays := [] }
    | some _ =>
      { remote := remote, ok := false, attempts := 1, delays := [] }
  | remaining + 1, attempt, remote =>
    match oracle attempt with
    | none =>
      { remote := upsertQrMapping remote ⟨qrCodeId, memberId, eventIdOrNull eventId⟩,
        ok := true, attempts := 1, delays := [] }
    | some e =>
      if isRetryableError e then
        let res := persistGo oracle qrCodeId memberId eventId remaining (attempt + 1) remote
        { remote := res.remote, ok := res.ok, attempts := res.attempts + 1,
          delays := BASE_DELAY * 2 ^ (attempt - 1) :: res.delays }
      else
        { remote := remote, ok := false, attempts := 1, delays := [] }

/-- persistQRMappingToSupabase entry point: starts at attempt 1 (export.ts
line 1799, default parameter `attempt: number = 1`). -/
def persistQRMappingToSupabase (oracle : Nat → Option SupaError)
    (qrCodeId memberId : String) (eventId : String)
    (remote : List RemoteRow) : PersistResult :=
  persistGo oracle qrCodeId memberId eventId (MAX_ATTEMPTS - 1) 1 remote

/-- JavaScript object assignment `mappings[qrCodeId] = memberId` on the
localStorage mapping object (export.ts line 1777): overwrite the binding for
the key if present, else add it. -/
def localUpsert (m : List (String × String)) (k v : String) :
    List (String × String) :=
  if m.any (fun p => p.1 == k) then
    m.map (fun p => if p.1 == k then (k, v) else p)
  else
    m ++ [(k, v)]

/-- JavaScript `mappings[qrCodeId] || null` (export.ts line 1921): the lookup
in the localStorage object; an empty-string value is falsy and yields null. -/
def localLookup (m : List (String × String)) (k : String) : Option String :=
  match m.find? (fun p => p.1 == k) with
  | some p => if p.2 == "" then none else some p.2
  | none => none

/-- Result of saveQRCodeMapping.  `persistOk` is the outcome of the inner
persistQRMappingToSupabase call, which the source only logs;
`returnedNormally` records whether saveQRCodeMapping itself completed without
throwing — its catch block (export.ts lines 1791-1794) swallows the
persistence error, so it is true on every path. -/
structure SaveResult where
  state : AppState
  persistOk : Bool
  attempts : Nat
  delays : List Nat
  returnedNormally : Bool
deriving Repr, DecidableEq

/-- saveQRCodeMapping (export.ts lines 1775-1796): write the mapping into the
localStorage object first, unconditionally; then, if Supabase is configured,
await persistQRMappingToSupabase with the current event id, catching (and
only logging) any error it throws. -/
def saveQRCodeMapping (oracle : Nat → Option SupaError) (st : AppState)
    (qrCodeId memberId : String) : SaveResult :=
  let local2 := localUpsert st.localMappings qrCodeId memberId
  if st.supabaseConfigured then
    let eventId := getCurrentEventId st
    let r := persistQRMappingToSupabase oracle qrCodeId memberId eventId st.remote
    { state := { st with localMappings := local2, remote := r.remote },
      persistOk := r.ok, attempts := r.attempts, delays := r.delays,
      returnedNormally := true }
  else
    { state := { st with localMappings := local2 },
      persistOk := true, attempts := 0, delays := [],
      returnedNormally := true }

/-- The remote select of getMemberIdFromQRCode (export.ts lines 1881-1891):
rows with the given qr_code_id, additionally filtered by
`event_id == currentEventId` only when the current event id is non-empty
(`if (eventId) query = query.eq("event_id", eventId)`). -/
def scopedMatches (st : AppState) (qrCodeId : String) : List RemoteRow :=
  st.remote.filter (fun r =>
    r.qr_code_id == qrCodeId &&
    (getCurrentEventId st == "" || r.event_id == some (getCurrentEventId st)))

/-- getMemberIdFromQRCode (export.ts lines 1874-1928): query Supabase first
(when configured) with the scoped filter; `.maybeSingle()` errors when more
than one row matches, and any error falls through to the local lookup; a
single row with a truthy member_id is returned immediately; otherwise (no
match, falsy member_id, read error, or Supabase unconfigured) fall back to
the localStorage lookup by token alone. -/
def getMemberIdFromQRCode (readErr : Option SupaError) (st : AppState)
    (qrCodeId : String) : Option String :=
  if st.supabaseConfigured then
    match readErr with
    | some _ => localLookup st.localMappings qrCodeId
    | none =>
      match scopedMatches st qrCodeId with
      | [r] =>
        if r.member_id == "" then localLookup st.localMappings qrCodeId
        else some r.member_id
      | _ => localLookup st.localMappings qrCodeId
  else
    localLookup st.localMappings qrCodeId

/-- getTajneedMembers (export.ts lines 1681-1726): read the current event id;
when it is empty return the empty list; otherwise return the members whose
eventId equals it (both the localStorage branch and the Supabase branch
apply this filter; fetch errors also yield the empty list, which is subsumed
by a world whose member list is empty). -/
def getTajneedMembers (st : AppState) : List TajneedMember :=
  let eventId := getCurrentEventId st
  if eventId == "" then []
  else st.members.filter (fun m => m.eventId == eventId)

/-- The environment of one findMemberByQRCodeId run: the device-visible state
at each successive await point (snap 0: first member fetch; snap 1: the
getMemberIdFromQRCode call; snap 2: the member re-fetch after the 200ms
sleep), and the remote read outcome at each point. -/
structure World where
  snap : Nat → AppState
  readErr : Nat → Option SupaError

/-- Result of findMemberByQRCodeId: the member found (null = none), the
sleeps performed in ms, and how many times getMemberIdFromQRCode was
invoked. -/
structure FindResult where
  member : Option TajneedMember
  delays : List Nat
  resolveCalls : Nat
deriving Repr, DecidableEq

/-- findMemberByQRCodeId (export.ts lines 1931-1985): fetch the members of
the current event; try a direct id lookup; otherwise call
getMemberIdFromQRCode once; on a mapped id, look it up in the already-fetched
list, and if absent sleep 200ms, re-fetch and try once more; on no mapped id,
sleep 200ms, re-fetch and retry only the direct lookup.  It never throws and
never calls getMemberIdFromQRCode a second time. -/
def findMemberByQRCodeId (w : World) (qrCodeId : String) : FindResult :=
  let members0 := getTajneedMembers (w.snap 0)
  match members0.find? (fun m => m.id == qrCodeId) with
  | some m => { member := some m, delays := [], resolveCalls := 0 }
  | none =>
    match getMemberIdFromQRCode (w.readErr 1) (w.snap 1) qrCodeId with
    | some mappedId =>
      match members0.find? (fun m => m.id == mappedId) with
      | some m => { member := some m, delays := [], resolveCalls := 1 }
      | none =>
        let members2 := getTajneedMembers (w.snap 2)
        { member := members2.find? (fun m => m.id == mappedId),
          delays := [200], resolveCalls := 1 }
    | none =>
      let members2 := getTajneedMembers (w.snap 2)
      { member := members2.find? (fun m => m.id == qrCodeId),
        delays := [200], resolveCalls := 1 }

/-!
Helper lemmas about the embedded stores.
-/

/-- The remote qr_mappings table is well formed when no two rows share a
qr_code_id: this is exactly what the PRIMARY KEY on qr_code_id enforces. -/
def remoteWF (rows : List RemoteRow) : Prop :=
  rows.Pairwise (fun a b => a.qr_code_id ≠ b.qr_code_id)

/-- Looking up a key in the localStorage mapping object right after writing it
returns the written value (the empty string being falsy yields null). -/
theorem localLookup_localUpsert (m : List (String × String)) (k v : String) :
    localLookup (localUpsert m k v) k = if v == "" then none else some v := by
  induction m with
  | nil => simp [localUpsert, localLookup, List.find?]
  | cons p m ih =>
    by_cases hp : (p.1 == k) = true
    · have hp2 : p.1 = k := eq_of_beq hp
      simp [localUpsert, localLookup, hp2, List.find?]
    · have hp2 : ¬ p.1 = k := by simpa using hp
      have hp3 : (p.1 == k) = false := by simpa using hp
      have hstep : localUpsert (p :: m) k v = p :: localUpsert m k v := by
        by_cases hany : (m.any fun q => q.1 == k) = true <;>
          simp [localUpsert, hp2, hany]
      rw [hstep]
      simpa [localLookup, List.find?, hp3] using ih

/-- In a well-formed table where some row matches the new row's key, the
replace-step of the upsert leaves exactly one row with that key: the new
row. -/
theorem filter_map_replace (rows : List RemoteRow) (row : RemoteRow)
    (hwf : rows.Pairwise (fun a b => a.qr_code_id ≠ b.qr_code_id))
    (hany : (rows.any fun r => r.qr_code_id == row.qr_code_id) = true) :
    ((rows.map fun r => if r.qr_code_id == row.qr_code_id then row else r).filter
      fun r => r.qr_code_id == row.qr_code_id) = [row] := by
  induction rows with
  | nil => simp at hany
  | cons a rows ih =>
    rcases List.pairwise_cons.mp hwf with ⟨ha, hwf2⟩
    rw [List.map_cons, List.filter_cons]
    by_cases hk : (a.qr_code_id == row.qr_code_id) = true
    · have hae : a.qr_code_id = row.qr_code_id := eq_of_beq hk
      rw [if_pos hk]
      have htail : (rows.map fun r =>
          if r.qr_code_id == row.qr_code_id then row else r) = rows := by
        have hpt : ∀ r ∈ rows,
            (if r.qr_code_id == row.qr_code_id then row else r) = r := by
          intro r hr
          have hne : ¬ (r.qr_code_id == row.qr_code_id) = true := by
            simp only [beq_iff_eq, ← hae]
            exact (ha r hr).symm
          rw [if_neg hne]
        calc (rows.map fun r => if r.qr_code_id == row.qr_code_id then row else r)
            = rows.map id := List.map_congr_left hpt
          _ = rows := List.map_id rows
      rw [htail]
      have hnone : (rows.filter fun r => r.qr_code_id == row.qr_code_id) = [] := by
        rw [List.filter_eq_nil_iff]
        intro r hr
        simp only [beq_iff_eq, ← hae]
        exact (ha r hr).symm
      simp [hnone]
    · rw [if_neg hk]
      have hk2 : (a.qr_code_id == row.qr_code_id) = false := by simpa using hk
      have hany2 : (rows.any fun r => r.qr_code_id == row.qr_code_id) = true := by
        rw [List.any_cons, hk2, Bool.false_or] at hany
        exact hany
      rw [if_neg hk]
      exact ih hwf2 hany2

/-- In a well-formed table the upsert (conflict target: qr_code_id) leaves
exactly one row carrying the written key, namely the written row. -/
theorem filter_upsertQrMapping (rows : List RemoteRow) (row : RemoteRow)
    (hwf : remoteWF rows) :
    ((upsertQrMapping rows row).filter
      fun r => r.qr_code_id == row.qr_code_id) = [row] := by
  unfold upsertQrMapping
  by_cases hany : (rows.any fun r => r.qr_code_id == row.qr_code_id) = true
  · rw [if_pos hany]
    exact filter_map_replace rows row hwf hany
  · rw [if_neg hany, List.filter_append]
    have hany2 : (rows.any fun r => r.qr_code_id == row.qr_code_id) = false := by
      simpa using hany
    have h1 : (rows.filter fun r => r.qr_code_id == row.qr_code_id) = [] := by
      rw [List.filter_eq_nil_iff]
      exact List.any_eq_false.mp hany2
    simp [h1]

/-- The upsert preserves well-formedness of the remote table. -/
theorem remoteWF_upsertQrMapping (rows : List RemoteRow) (row : RemoteRow)
    (hwf : remoteWF rows) : remoteWF (upsertQrMapping rows row) := by
  unfold upsertQrMapping remoteWF
  by_cases hany : (rows.any fun r => r.qr_code_id == row.qr_code_id) = true
  · rw [if_pos hany]
    have hkey : ∀ r : RemoteRow,
        ((if r.qr_code_id == row.qr_code_id then row else r).qr_code_id) =
          r.qr_code_id := by
      intro r
      by_cases h : (r.qr_code_id == row.qr_code_id) = true
      · rw [if_pos h, eq_of_beq h]
      · rw [if_neg h]
    refine List.Pairwise.map _ (fun a b hab => ?_) hwf
    show ((if a.qr_code_id == row.qr_code_id then row else a).qr_code_id) ≠
      ((if b.qr_code_id == row.qr_code_id then row else b).qr_code_id)
    rw [hkey a, hkey b]
    exact hab
  · rw [if_neg hany, List.pairwise_append]
    have hany2 : (rows.any fun r => r.qr_code_id == row.qr_code_id) = false := by
      simpa using hany
    refine ⟨hwf, List.pairwise_singleton _ _, ?_⟩
    intro a ha b hb
    have hb1 : b = row := by simpa using hb
    subst hb1
    have := List.any_eq_false.mp hany2 a ha
    simpa using this

/-- After a state update that upserts a row keyed by the resolved token, the
scoped remote query of getMemberIdFromQRCode returns exactly that row (the
row's event_id is the current event id, or NULL when no event is set, so it
passes the scope filter either way). -/
theorem scopedMatches_upsert (st : AppState) (qr mid : String)
    (loc : List (String × String)) (hwf : remoteWF st.remote) :
    scopedMatches
      { st with localMappings := loc,
                remote := upsertQrMapping st.remote
                  ⟨qr, mid, eventIdOrNull (getCurrentEventId st)⟩ } qr =
      [⟨qr, mid, eventIdOrNull (getCurrentEventId st)⟩] := by
  unfold scopedMatches
  have hcomm :
      ((upsertQrMapping st.remote ⟨qr, mid, eventIdOrNull (getCurrentEventId st)⟩).filter
        fun r => r.qr_code_id == qr &&
          (getCurrentEventId st == "" || r.event_id == some (getCurrentEventId st))) =
      (((upsertQrMapping st.remote ⟨qr, mid, eventIdOrNull (getCurrentEventId st)⟩).filter
        fun r => r.qr_code_id == qr).filter
        fun r => getCurrentEventId st == "" || r.event_id == some (getCurrentEventId st)) := by
    rw [List.filter_filter]
    exact List.filter_congr (by intro a _; rw [Bool.and_comm])
  simp only [getCurrentEventId] at hcomm ⊢
  have hfu := filter_upsertQrMapping st.remote
    ⟨qr, mid, eventIdOrNull st.currentEventId⟩ hwf
  rw [show (⟨qr, mid, eventIdOrNull st.currentEventId⟩ : RemoteRow).qr_code_id = qr
    from rfl] at hfu
  rw [hcomm, hfu]
  by_cases hev : (st.currentEventId == "") = true
  · simp [hev]
  · have hev2 : (st.currentEventId == "") = false := by simpa using hev
    simp [hev2, eventIdOrNull]

/-- When every remote write attempt errors, the retry loop reports failure
and leaves the remote table untouched, whatever the attempt budget. -/
theorem persistGo_allSome (oracle : Nat → Option SupaError)
    (qrCodeId memberId eventId : String)
    (h : ∀ n, (oracle n).isSome = true) :
    ∀ remaining attempt remote,
      (persistGo oracle qrCodeId memberId eventId remaining attempt remote).ok = false ∧
      (persistGo oracle qrCodeId memberId eventId remaining attempt remote).remote =
        remote := by
  intro remaining
  induction remaining with
  | zero =>
    intro attempt remote
    rcases Option.isSome_iff_exists.mp (h attempt) with ⟨e, he⟩
    simp [persistGo, he]
  | succ remaining ih =>
    intro attempt remote
    rcases Option.isSome_iff_exists.mp (h attempt) with ⟨e, he⟩
    by_cases hr : isRetryableError e = true
    · simp [persistGo, he, hr, ih (attempt + 1) remote]
    · simp [persistGo, he, hr]

/-- When the retry loop reports success, the remote table is exactly the
original table with the mapping row upserted. -/
theorem persistGo_ok_remote (oracle : Nat → Option SupaError)
    (qrCodeId memberId eventId : String) :
    ∀ remaining attempt remote,
      (persistGo oracle qrCodeId memberId eventId remaining attempt remote).ok = true →
      (persistGo oracle qrCodeId memberId eventId remaining attempt remote).remote =
        upsertQrMapping remote ⟨qrCodeId, memberId, eventIdOrNull eventId⟩ := by
  intro remaining
  induction remaining with
  | zero =>
    intro attempt remote hok
    cases ho : oracle attempt with
    | none => simp [persistGo, ho]
    | some e => simp [persistGo, ho] at hok
  | succ remaining ih =>
    intro attempt remote hok
    cases ho : oracle attempt with
    | none => simp [persistGo, ho]
    | some e =>
      by_cases hr : isRetryableError e = true
      · simp only [persistGo, ho, hr, if_true] at hok ⊢
        exact ih (attempt + 1) remote hok
      · simp [persistGo, ho, hr] at hok

/-- saveQRCodeMapping always writes the mapping into the localStorage object,
leaves the other device-local fields unchanged, and never throws (the catch
block swallows the remote error). -/
theorem saveQRCodeMapping_state (oracle : Nat → Option SupaError)
    (st : AppState) (qrCodeId memberId : String) :
    (saveQRCodeMapping oracle st qrCodeId memberId).state.localMappings =
      localUpsert st.localMappings qrCodeId memberId ∧
    (saveQRCodeMapping oracle st qrCodeId memberId).state.supabaseConfigured =
      st.supabaseConfigured ∧
    (saveQRCodeMapping oracle st qrCodeId memberId).state.currentEventId =
      st.currentEventId ∧
    (saveQRCodeMapping oracle st qrCodeId memberId).state.members = st.members ∧
    (saveQRCodeMapping oracle st qrCodeId memberId).returnedNormally = true := by
  by_cases hc : st.supabaseConfigured = true <;>
    simp [saveQRCodeMapping, hc]

/-- When Supabase is configured and the inner persistence succeeded, the
state after saveQRCodeMapping is the original state with the local mapping
written and the remote row upserted. -/
theorem saveQRCodeMapping_ok_state (oracle : Nat → Option SupaError)
    (st : AppState) (qrCodeId memberId : String)
    (hconf : st.supabaseConfigured = true)
    (hok : (saveQRCodeMapping oracle st qrCodeId memberId).persistOk = true) :
    (saveQRCodeMapping oracle st qrCodeId memberId).state =
      { st with localMappings := localUpsert st.localMappings qrCodeId memberId,
                remote := upsertQrMapping st.remote
                  ⟨qrCodeId, memberId, eventIdOrNull (getCurrentEventId st)⟩ } := by
  simp only [saveQRCodeMapping, hconf, if_true, persistQRMappingToSupabase]
    at hok ⊢
  rw [persistGo_ok_remote oracle qrCodeId memberId (getCurrentEventId st)
    (MAX_ATTEMPTS - 1) 1 st.remote hok]

/-!
Claim theorems.
-/

/-- Claim C1 (failing input, code bug): persisting the same token "X" under
scope "eventA" (entity "m1") and then under scope "eventB" (entity "m2") does
NOT leave two independent records: the remote upsert conflicts on qr_code_id
alone (the table's primary key omits event_id), so the second write
overwrites the first and exactly one remote row remains; afterwards
Resolve under scope "eventA" returns "m2" — not "m1" as the claim (and the
repository's own event-isolation documentation) requires.  Every step below
is the code evaluated on the failing input with a fully available remote
store. -/
theorem c1_cross_scope_collision :
    let ok : Nat → Option SupaError := fun _ => none
    let st0 : AppState := ⟨true, "eventA", [], [], []⟩
    let s1 := saveQRCodeMapping ok st0 "X" "m1"
    let s2 := saveQRCodeMapping ok { s1.state with currentEventId := "eventB" } "X" "m2"
    let back : AppState := { s2.state with currentEventId := "eventA" }
    (s2.state.remote.filter fun r => r.qr_code_id == "X").length = 1 ∧
    s2.state.remote = [⟨"X", "m2", some "eventB"⟩] ∧
    getMemberIdFromQRCode none back "X" = some "m2" ∧
    getMemberIdFromQRCode none back "X" ≠ some "m1" ∧
    getMemberIdFromQRCode none s2.state "X" = some "m2" := by
  decide

/-- Claim C2 (counterexample): with the remote store failing terminally on
every write attempt (a non-retryable constraint error), saveQRCodeMapping —
the Persist entry point callers await — still returns normally: the awaited
call signals success to the caller even though the inner persistence
rejected, so the caller cannot observe the remote failure. -/
theorem c2_counterexample :
    let bad : Nat → Option SupaError :=
      fun _ => some ⟨"23505", "duplicate key value violates unique constraint"⟩
    let st0 : AppState := ⟨true, "eventA", [], [], []⟩
    (saveQRCodeMapping bad st0 "X" "m1").persistOk = false ∧
    (saveQRCodeMapping bad st0 "X" "m1").returnedNormally = true := by
  decide

/-- Claim C2 (amended): when every remote write attempt fails, the inner
persistQRMappingToSupabase does reject with a definitive error (ok = false),
but saveQRCodeMapping catches that rejection and completes normally, so the
external caller of Persist observes success regardless of the remote
outcome. -/
theorem c2_amended (oracle : Nat → Option SupaError) (st : AppState)
    (qrCodeId memberId : String)
    (h : ∀ n, (oracle n).isSome = true) :
    (persistQRMappingToSupabase oracle qrCodeId memberId
      (getCurrentEventId st) st.remote).ok = false ∧
    (saveQRCodeMapping oracle st qrCodeId memberId).returnedNormally = true := by
  refine ⟨?_, (saveQRCodeMapping_state oracle st qrCodeId memberId).2.2.2.2⟩
  exact (persistGo_allSome oracle qrCodeId memberId (getCurrentEventId st) h
    (MAX_ATTEMPTS - 1) 1 st.remote).1

/-- Claim C2 (amended, witness): concrete instance with a permanently failing
remote store. -/
theorem c2_amended_witness :
    (persistQRMappingToSupabase
      (fun _ => some ⟨"23505", "duplicate key value violates unique constraint"⟩)
      "X" "m1" "eventA" []).ok = false ∧
    (saveQRCodeMapping
      (fun _ => some ⟨"23505", "duplicate key value violates unique constraint"⟩)
      ⟨true, "eventA", [], [], []⟩ "X" "m1").returnedNormally = true :=
  c2_amended
    (fun _ => some ⟨"23505", "duplicate key value violates unique constraint"⟩)
    ⟨true, "eventA", [], [], []⟩ "X" "m1" (fun _ => rfl)

/-- Claim C3 (counterexample): with every attempt failing retryably
(message "connection timeout"), Persist performs exactly 3 attempts, but the
observed inter-attempt delays are 100ms and 200ms only — two sleeps for three
attempts, ~300ms total — not the claimed 100ms, 200ms and 400ms (~700ms):
after the third failed attempt no further delay occurs, failure is thrown. -/
theorem c3_counterexample :
    let bad : Nat → Option SupaError := fun _ => some ⟨"", "connection timeout"⟩
    (persistQRMappingToSupabase bad "X" "m1" "eventA" []).attempts = 3 ∧
    (persistQRMappingToSupabase bad "X" "m1" "eventA" []).delays = [100, 200] ∧
    (persistQRMappingToSupabase bad "X" "m1" "eventA" []).delays ≠ [100, 200, 400] := by
  decide

/-- Claim C3 (amended): if every remote write attempt fails with a retryable
error, Persist performs exactly 3 attempts; the delay before the n-th retry
is 100ms * 2^(n-1) for n = 1, 2, so the observed inter-attempt delays are
100ms and 200ms (worst-case total backoff ~300ms), after which failure is
reported and the remote table is left unchanged. -/
theorem c3_amended (oracle : Nat → Option SupaError)
    (qrCodeId memberId eventId : String) (remote : List RemoteRow)
    (h : ∀ n, 1 ≤ n → n ≤ MAX_ATTEMPTS →
      ∃ e, oracle n = some e ∧ isRetryableError e = true) :
    (persistQRMappingToSupabase oracle qrCodeId memberId eventId remote).attempts = 3 ∧
    (persistQRMappingToSupabase oracle qrCodeId memberId eventId remote).delays =
      [100, 200] ∧
    (persistQRMappingToSupabase oracle qrCodeId memberId eventId remote).ok = false ∧
    (persistQRMappingToSupabase oracle qrCodeId memberId eventId remote).remote =
      remote := by
  rcases h 1 (by decide) (by decide) with ⟨e1, he1, hr1⟩
  rcases h 2 (by decide) (by decide) with ⟨e2, he2, hr2⟩
  rcases h 3 (by decide) (by decide) with ⟨e3, he3, hr3⟩
  simp [persistQRMappingToSupabase, persistGo, MAX_ATTEMPTS, BASE_DELAY,
    he1, he2, he3, hr1, hr2, hr3]

/-- Claim C3 (amended, witness): concrete always-retryable failure. -/
theorem c3_amended_witness :
    (persistQRMappingToSupabase (fun _ => some ⟨"", "connection refused"⟩)
      "T" "m7" "evt" []).attempts = 3 ∧
    (persistQRMappingToSupabase (fun _ => some ⟨"", "connection refused"⟩)
      "T" "m7" "evt" []).delays = [100, 200] ∧
    (persistQRMappingToSupabase (fun _ => some ⟨"", "connection refused"⟩)
      "T" "m7" "evt" []).ok = false ∧
    (persistQRMappingToSupabase (fun _ => some ⟨"", "connection refused"⟩)
      "T" "m7" "evt" []).remote = [] :=
  c3_amended (fun _ => some ⟨"", "connection refused"⟩) "T" "m7" "evt" []
    (fun _ _ _ => ⟨⟨"", "connection refused"⟩, rfl, by decide⟩)

/-- Claim C4 (counterexample): the error with code 42P01 ("relation
qr_mappings does not exist" — an undefined-table, i.e. schema-class, error)
contains none of the network/timeout/temporary-unavailability markers, yet
the Retrying Writer classifies it retryable and performs all 3 attempts
instead of surfacing it immediately; so it is not the case that only
network/connection errors, timeouts and temporary-unavailability responses
are retried. -/
theorem c4_counterexample :
    let e42 : SupaError := ⟨"42P01", "relation qr_mappings does not exist"⟩
    strIncludes e42.message "connection" = false ∧
    strIncludes e42.message "timeout" = false ∧
    strIncludes e42.message "temporarily unavailable" = false ∧
    isRetryableError e42 = true ∧
    (persistQRMappingToSupabase (fun _ => some e42) "X" "m1" "eventA" []).attempts = 3 ∧
    (persistQRMappingToSupabase (fun _ => some e42) "X" "m1" "eventA" []).delays =
      [100, 200] := by
  decide

/-- Claim C4 (amended): any error outside the code's retryable class — which
covers the spec's terminal errors (constraint violations, permission errors,
malformed input) but also admits the table-not-found codes PGRST301 and 42P01
as retryable — is surfaced immediately on the first attempt with no retry, no
delay and no remote change; and any error whose message carries a
connection / timeout / temporarily-unavailable marker is classified
retryable. -/
theorem c4_amended (e : SupaError) (oracle : Nat → Option SupaError)
    (qrCodeId memberId eventId : String) (remote : List RemoteRow)
    (hterm : isRetryableError e = false) (h1 : oracle 1 = some e) :
    (persistQRMappingToSupabase oracle qrCodeId memberId eventId remote).attempts = 1 ∧
    (persistQRMappingToSupabase oracle qrCodeId memberId eventId remote).delays = [] ∧
    (persistQRMappingToSupabase oracle qrCodeId memberId eventId remote).ok = false ∧
    (persistQRMappingToSupabase oracle qrCodeId memberId eventId remote).remote =
      remote ∧
    (∀ e2 : SupaError,
      (strIncludes e2.message "connection" ||
       strIncludes e2.message "timeout" ||
       strIncludes e2.message "temporarily unavailable") = true →
      isRetryableError e2 = true) := by
  refine ⟨?_, ?_, ?_, ?_, ?_⟩
  · simp [persistQRMappingToSupabase, persistGo, MAX_ATTEMPTS, h1, hterm]
  · simp [persistQRMappingToSupabase, persistGo, MAX_ATTEMPTS, h1, hterm]
  · simp [persistQRMappingToSupabase, persistGo, MAX_ATTEMPTS, h1, hterm]
  · simp [persistQRMappingToSupabase, persistGo, MAX_ATTEMPTS, h1, hterm]
  · intro e2 hmarks
    unfold isRetryableError
    rcases Bool.or_eq_true_iff.mp hmarks with hm | hm3
    · rcases Bool.or_eq_true_iff.mp hm with hm1 | hm2
      · simp [hm1]
      · simp [hm2]
    · simp [hm3]

/-- Claim C4 (amended, witness): a permission-denied error is surfaced on the
first attempt without retry. -/
theorem c4_amended_witness :
    (persistQRMappingToSupabase
      (fun _ => some ⟨"42501", "permission denied for table qr_mappings"⟩)
      "X" "m1" "eventA" []).attempts = 1 ∧
    (persistQRMappingToSupabase
      (fun _ => some ⟨"42501", "permission denied for table qr_mappings"⟩)
      "X" "m1" "eventA" []).delays = [] ∧
    (persistQRMappingToSupabase
      (fun _ => some ⟨"42501", "permission denied for table qr_mappings"⟩)
      "X" "m1" "eventA" []).ok = false ∧
    (persistQRMappingToSupabase
      (fun _ => some ⟨"42501", "permission denied for table qr_mappings"⟩)
      "X" "m1" "eventA" []).remote = [] ∧
    (∀ e2 : SupaError,
      (strIncludes e2.message "connection" ||
       strIncludes e2.message "timeout" ||
       strIncludes e2.message "temporarily unavailable") = true →
      isRetryableError e2 = true) :=
  c4_amended ⟨"42501", "permission denied for table qr_mappings"⟩
    (fun _ => some ⟨"42501", "permission denied for table qr_mappings"⟩)
    "X" "m1" "eventA" [] (by decide) rfl

/-- Resolution helper: a unique scoped remote match with a truthy member_id
is returned immediately, whatever the local cache holds. -/
theorem getMemberId_remote_hit (st : AppState) (qr : String) (r : RemoteRow)
    (hconf : st.supabaseConfigured = true)
    (hm : scopedMatches st qr = [r]) (hne : (r.member_id == "") = false) :
    getMemberIdFromQRCode none st qr = some r.member_id := by
  simp [getMemberIdFromQRCode, hconf, hm, hne]

/-- Resolution helper: with no scoped remote match the chain falls back to
the localStorage lookup by token alone. -/
theorem getMemberId_fallback_local (st : AppState) (qr : String)
    (hconf : st.supabaseConfigured = true)
    (hm : scopedMatches st qr = []) :
    getMemberIdFromQRCode none st qr = localLookup st.localMappings qr := by
  simp [getMemberIdFromQRCode, hconf, hm]

/-- Resolution helper: a remote read error makes the chain fall back to the
localStorage lookup (the error is logged, never thrown). -/
theorem getMemberId_readErr (st : AppState) (qr : String) (e : SupaError)
    (hconf : st.supabaseConfigured = true) :
    getMemberIdFromQRCode (some e) st qr = localLookup st.localMappings qr := by
  simp [getMemberIdFromQRCode, hconf]

/-- Resolution helper: with Supabase unconfigured the chain is the
localStorage lookup. -/
theorem getMemberId_unconfigured (st : AppState) (qr : String)
    (readErr : Option SupaError)
    (hconf : st.supabaseConfigured = false) :
    getMemberIdFromQRCode readErr st qr = localLookup st.localMappings qr := by
  simp [getMemberIdFromQRCode, hconf]

/-- Store helper: scopedMatches only reads the remote table and the current
event id. -/
theorem scopedMatches_congr (st st2 : AppState) (qr : String)
    (hr : st.remote = st2.remote) (hc : st.currentEventId = st2.currentEventId) :
    scopedMatches st qr = scopedMatches st2 qr := by
  unfold scopedMatches getCurrentEventId
  rw [hr, hc]

/-- Store helper: a token carried by no remote row has no scoped match. -/
theorem scopedMatches_nil (st : AppState) (qr : String)
    (hfresh : ∀ r ∈ st.remote, r.qr_code_id ≠ qr) :
    scopedMatches st qr = [] := by
  unfold scopedMatches
  rw [List.filter_eq_nil_iff]
  intro r hr
  simp [hfresh r hr]

/-- Claim C5: resolution-chain order.  With Supabase configured: (1) a unique
scoped remote match with a non-empty member_id is returned immediately, for
every possible local cache content (the local cache is not consulted); (2) on
a remote read error the chain returns the local-cache lookup keyed by token
alone; (3) likewise when the remote has no scoped match; (4) when in addition
the local cache misses, the chain returns null without error; (5) when the
current scope is empty the remote query filters by token only. -/
theorem c5_resolution_chain_order (st : AppState) (qrCodeId : String)
    (hconf : st.supabaseConfigured = true) :
    (∀ (r : RemoteRow) (loc : List (String × String)),
      scopedMatches st qrCodeId = [r] → r.member_id ≠ "" →
      getMemberIdFromQRCode none { st with localMappings := loc } qrCodeId =
        some r.member_id) ∧
    (∀ e : SupaError,
      getMemberIdFromQRCode (some e) st qrCodeId =
        localLookup st.localMappings qrCodeId) ∧
    (scopedMatches st qrCodeId = [] →
      getMemberIdFromQRCode none st qrCodeId =
        localLookup st.localMappings qrCodeId) ∧
    (scopedMatches st qrCodeId = [] →
      localLookup st.localMappings qrCodeId = none →
      getMemberIdFromQRCode none st qrCodeId = none) ∧
    (getCurrentEventId st = "" →
      scopedMatches st qrCodeId =
        st.remote.filter fun r => r.qr_code_id == qrCodeId) := by
  refine ⟨?_, ?_, ?_, ?_, ?_⟩
  · intro r loc hm hne
    have hm2 : scopedMatches { st with localMappings := loc } qrCodeId = [r] := by
      rw [scopedMatches_congr { st with localMappings := loc } st qrCodeId rfl rfl]
      exact hm
    exact getMemberId_remote_hit _ qrCodeId r hconf hm2 (by simpa using hne)
  · intro e
    exact getMemberId_readErr st qrCodeId e hconf
  · intro hm
    exact getMemberId_fallback_local st qrCodeId hconf hm
  · intro hm hl
    rw [getMemberId_fallback_local st qrCodeId hconf hm, hl]
  · intro hev
    have hev2 : st.currentEventId = "" := hev
    simp [scopedMatches, getCurrentEventId, hev2]

/-- Claim C5 (witness): a concrete state exercising the remote-first hit, the
error fallback, and the double-miss null outcome. -/
theorem c5_resolution_chain_order_witness :
    getMemberIdFromQRCode none
      ⟨true, "evt", [("X", "mL")], [⟨"X", "mR", some "evt"⟩], []⟩ "X" =
      some "mR" ∧
    getMemberIdFromQRCode (some ⟨"", "network error"⟩)
      ⟨true, "evt", [("X", "mL")], [⟨"X", "mR", some "evt"⟩], []⟩ "X" =
      localLookup [("X", "mL")] "X" ∧
    getMemberIdFromQRCode none ⟨true, "evt", [], [], []⟩ "unknown-token" =
      none :=
  ⟨(c5_resolution_chain_order
      ⟨true, "evt", [("X", "mL")], [⟨"X", "mR", some "evt"⟩], []⟩ "X" rfl).1
      ⟨"X", "mR", some "evt"⟩ [("X", "mL")] (by decide) (by decide),
   (c5_resolution_chain_order
      ⟨true, "evt", [("X", "mL")], [⟨"X", "mR", some "evt"⟩], []⟩ "X" rfl).2.1
      ⟨"", "network error"⟩,
   (c5_resolution_chain_order
      ⟨true, "evt", [], [], []⟩ "unknown-token" rfl).2.2.2.1
      (by decide) (by decide)⟩

/-- Claim C6 (counterexample): the round-trip fails when the remote store
already holds a different mapping for the same (scope, token) key and the
remote write fails while the remote read succeeds.  Concretely: the remote
table maps "X" to "m9" under scope "eventA" (written by another device);
Persist("eventA", "X", "m1") fails terminally (permission denied on write);
the immediately following Resolve finds the stale remote row — remote is
authoritative — and returns "m9", not "m1", even though the local cache
holds "m1". -/
theorem c6_counterexample :
    let bad : Nat → Option SupaError :=
      fun _ => some ⟨"42501", "permission denied for table qr_mappings"⟩
    let st : AppState := ⟨true, "eventA", [], [⟨"X", "m9", some "eventA"⟩], []⟩
    let s := saveQRCodeMapping bad st "X" "m1"
    s.state.localMappings = [("X", "m1")] ∧
    getMemberIdFromQRCode none s.state "X" = some "m9" ∧
    getMemberIdFromQRCode none s.state "X" ≠ some "m1" := by
  decide

/-- Claim C6 (amended): Persist followed immediately by Resolve on the same
scope and token returns the persisted entityId (1) whenever the remote write
succeeded, and on remote-write failure whenever (2) the remote store has no
scoped match for the key at resolve time, (3) the remote read itself errors,
or (4) Supabase is unconfigured — i.e. in every case except a surviving
conflicting remote record for the same key, which shadows the local
fallback. -/
theorem c6_amended (oracle : Nat → Option SupaError) (st : AppState)
    (qrCodeId memberId : String) (readErr : Option SupaError)
    (hmid : memberId ≠ "") (hwf : remoteWF st.remote) :
    ((saveQRCodeMapping oracle st qrCodeId memberId).persistOk = true →
      st.supabaseConfigured = true →
      getMemberIdFromQRCode none
        (saveQRCodeMapping oracle st qrCodeId memberId).state qrCodeId =
        some memberId) ∧
    (scopedMatches (saveQRCodeMapping oracle st qrCodeId memberId).state qrCodeId =
        [] →
      getMemberIdFromQRCode none
        (saveQRCodeMapping oracle st qrCodeId memberId).state qrCodeId =
        some memberId) ∧
    (∀ e : SupaError, st.supabaseConfigured = true →
      getMemberIdFromQRCode (some e)
        (saveQRCodeMapping oracle st qrCodeId memberId).state qrCodeId =
        some memberId) ∧
    (st.supabaseConfigured = false →
      getMemberIdFromQRCode readErr
        (saveQRCodeMapping oracle st qrCodeId memberId).state qrCodeId =
        some memberId) := by
  have hmid2 : (memberId == "") = false := by simpa using hmid
  have hst := saveQRCodeMapping_state oracle st qrCodeId memberId
  have hlook :
      localLookup (saveQRCodeMapping oracle st qrCodeId memberId).state.localMappings
        qrCodeId = some memberId := by
    rw [hst.1, localLookup_localUpsert]
    simp [hmid2]
  refine ⟨?_, ?_, ?_, ?_⟩
  · intro hok hconf
    rw [saveQRCodeMapping_ok_state oracle st qrCodeId memberId hconf hok]
    exact getMemberId_remote_hit _ qrCodeId
      ⟨qrCodeId, memberId, eventIdOrNull (getCurrentEventId st)⟩
      hconf
      (scopedMatches_upsert st qrCodeId memberId
        (localUpsert st.localMappings qrCodeId memberId) hwf)
      hmid2
  · intro hm
    by_cases hconf : st.supabaseConfigured = true
    · rw [getMemberId_fallback_local _ qrCodeId (by rw [hst.2.1]; exact hconf) hm]
      exact hlook
    · have hconf2 : st.supabaseConfigured = false := by simpa using hconf
      rw [getMemberId_unconfigured _ qrCodeId none (by rw [hst.2.1]; exact hconf2)]
      exact hlook
  · intro e hconf
    rw [getMemberId_readErr _ qrCodeId e (by rw [hst.2.1]; exact hconf)]
    exact hlook
  · intro hconf
    rw [getMemberId_unconfigured _ qrCodeId readErr (by rw [hst.2.1]; exact hconf)]
    exact hlook

/-- Claim C6 (amended, witness): successful remote write then resolve on a
fresh store returns the persisted member id. -/
theorem c6_amended_witness :
    getMemberIdFromQRCode none
      (saveQRCodeMapping (fun _ => none)
        ⟨true, "eventA", [], [], []⟩ "X" "m1").state "X" = some "m1" :=
  (c6_amended (fun _ => none) ⟨true, "eventA", [], [], []⟩ "X" "m1" none
    (by decide) (by simp [remoteWF])).1 (by decide) rfl

/-- Claim C7 (counterexample): the post-registration confirmation read does
not poll Resolve three times.  In this world the store is inconsistent at the
first two await points but fully consistent at the third (snap 2): a Resolve
at that point returns the mapped member id "m-42", and the member record is
fetchable — yet findMemberByQRCodeId returns null, because it invoked
getMemberIdFromQRCode exactly once (at snap 1) and never re-polled it; its
only retry is a single member-list re-fetch after a fixed 200ms sleep. -/
theorem c7_counterexample :
    let stEarly : AppState := ⟨true, "evt-1", [], [], []⟩
    let stLate : AppState :=
      ⟨true, "evt-1", [], [⟨"SURPLUS-001", "m-42", some "evt-1"⟩],
        [⟨"m-42", "evt-1", "n", "t", "r", "j", "c"⟩]⟩
    let w : World := ⟨fun t => if t == 2 then stLate else stEarly, fun _ => none⟩
    (findMemberByQRCodeId w "SURPLUS-001").member = none ∧
    (findMemberByQRCodeId w "SURPLUS-001").resolveCalls = 1 ∧
    getMemberIdFromQRCode none (w.snap 2) "SURPLUS-001" = some "m-42" ∧
    (getTajneedMembers (w.snap 2)).find? (fun m => m.id == "m-42") =
      some ⟨"m-42", "evt-1", "n", "t", "r", "j", "c"⟩ := by
  decide

/-- Claim C7 (amended): findMemberByQRCodeId consults the resolution chain
(getMemberIdFromQRCode) at most once — never three polls — and its only
waiting is a single fixed 200ms sleep before one member-list re-fetch (its
delay trace is [] or [200], never an increasing multi-poll schedule); on
every path it returns a value (null on exhaustion) rather than throwing. -/
theorem c7_amended (w : World) (qrCodeId : String) :
    (findMemberByQRCodeId w qrCodeId).resolveCalls ≤ 1 ∧
    ((findMemberByQRCodeId w qrCodeId).delays = [] ∨
      (findMemberByQRCodeId w qrCodeId).delays = [200]) := by
  unfold findMemberByQRCodeId
  cases h0 : (getTajneedMembers (w.snap 0)).find? (fun m => m.id == qrCodeId) with
  | some m => simp [h0]
  | none =>
    cases h1 : getMemberIdFromQRCode (w.readErr 1) (w.snap 1) qrCodeId with
    | none => simp [h0, h1]
    | some mappedId =>
      cases h2 : (getTajneedMembers (w.snap 0)).find? (fun m => m.id == mappedId) with
      | some m => simp [h0, h1, h2]
      | none => simp [h0, h1, h2]

/-- Claim C8: the local-write floor.  For any write oracle, (1) Persist
writes the mapping into the local cache, before and independently of any
remote attempt — (2) the resulting local cache is identical under any other
remote oracle; and (3) when every remote attempt fails and the token was not
already in the remote table, the immediately following Resolve still returns
the persisted entityId via the local fallback path, whatever the remote read
outcome. -/
theorem c8_local_write_floor (oracle oracle2 : Nat → Option SupaError)
    (st : AppState) (qrCodeId memberId : String) (readErr : Option SupaError)
    (hmid : memberId ≠ "")
    (hfail : ∀ n, (oracle n).isSome = true)
    (hfresh : ∀ r ∈ st.remote, r.qr_code_id ≠ qrCodeId) :
    (saveQRCodeMapping oracle st qrCodeId memberId).state.localMappings =
      localUpsert st.localMappings qrCodeId memberId ∧
    (saveQRCodeMapping oracle st qrCodeId memberId).state.localMappings =
      (saveQRCodeMapping oracle2 st qrCodeId memberId).state.localMappings ∧
    getMemberIdFromQRCode readErr
      (saveQRCodeMapping oracle st qrCodeId memberId).state qrCodeId =
      some memberId := by
  have hmid2 : (memberId == "") = false := by simpa using hmid
  have hst := saveQRCodeMapping_state oracle st qrCodeId memberId
  have hst2 := saveQRCodeMapping_state oracle2 st qrCodeId memberId
  have hlook :
      localLookup
        (saveQRCodeMapping oracle st qrCodeId memberId).state.localMappings
        qrCodeId = some memberId := by
    rw [hst.1, localLookup_localUpsert]
    simp [hmid2]
  refine ⟨hst.1, by rw [hst.1, hst2.1], ?_⟩
  have hrem : (saveQRCodeMapping oracle st qrCodeId memberId).state.remote =
      st.remote := by
    by_cases hconf : st.supabaseConfigured = true
    · simp only [saveQRCodeMapping, hconf, if_true, persistQRMappingToSupabase]
      exact (persistGo_allSome oracle qrCodeId memberId (getCurrentEventId st)
        hfail (MAX_ATTEMPTS - 1) 1 st.remote).2
    · simp [saveQRCodeMapping, hconf]
  have hm : scopedMatches
      (saveQRCodeMapping oracle st qrCodeId memberId).state qrCodeId = [] := by
    apply scopedMatches_nil
    rw [hrem]
    exact hfresh
  by_cases hconf : st.supabaseConfigured = true
  · have hconfS :
        (saveQRCodeMapping oracle st qrCodeId memberId).state.supabaseConfigured =
          true := by rw [hst.2.1]; exact hconf
    cases readErr with
    | none => rw [getMemberId_fallback_local _ qrCodeId hconfS hm]; exact hlook
    | some e => rw [getMemberId_readErr _ qrCodeId e hconfS]; exact hlook
  · have hconfS :
        (saveQRCodeMapping oracle st qrCodeId memberId).state.supabaseConfigured =
          false := by rw [hst.2.1]; simpa using hconf
    rw [getMemberId_unconfigured _ qrCodeId readErr hconfS]
    exact hlook

/-- Claim C8 (witness): concrete retry-exhaustion scenario — every remote
attempt times out, yet the local cache resolves the token afterwards. -/
theorem c8_local_write_floor_witness :
    (saveQRCodeMapping (fun _ => some ⟨"", "connection timeout"⟩)
      ⟨true, "eventA", [], [], []⟩ "X" "m1").state.localMappings =
      localUpsert [] "X" "m1" ∧
    (saveQRCodeMapping (fun _ => some ⟨"", "connection timeout"⟩)
      ⟨true, "eventA", [], [], []⟩ "X" "m1").state.localMappings =
      (saveQRCodeMapping (fun _ => none)
        ⟨true, "eventA", [], [], []⟩ "X" "m1").state.localMappings ∧
    getMemberIdFromQRCode none
      (saveQRCodeMapping (fun _ => some ⟨"", "connection timeout"⟩)
        ⟨true, "eventA", [], [], []⟩ "X" "m1").state "X" = some "m1" :=
  c8_local_write_floor (fun _ => some ⟨"", "connection timeout"⟩)
    (fun _ => none) ⟨true, "eventA", [], [], []⟩ "X" "m1" none
    (by decide) (fun _ => rfl) (by decide)

/-- With an always-successful remote store, saveQRCodeMapping produces the
state with the local mapping written and the remote row upserted. -/
theorem saveQRCodeMapping_none_state (st : AppState) (qrCodeId memberId : String)
    (hconf : st.supabaseConfigured = true) :
    (saveQRCodeMapping (fun _ => none) st qrCodeId memberId).state =
      { st with localMappings := localUpsert st.localMappings qrCodeId memberId,
                remote := upsertQrMapping st.remote
                  ⟨qrCodeId, memberId, eventIdOrNull (getCurrentEventId st)⟩ } := by
  simp only [saveQRCodeMapping, hconf, if_true]
  rfl

/-- In a well-formed table, upserting a row leaves exactly one row with the
written token as key: the written row. -/
theorem filter_upsert_key (rows : List RemoteRow) (qr mid : String)
    (evt : Option String) (hwf : remoteWF rows) :
    ((upsertQrMapping rows ⟨qr, mid, evt⟩).filter fun r => r.qr_code_id == qr) =
      [⟨qr, mid, evt⟩] := by
  simpa using filter_upsertQrMapping rows ⟨qr, mid, evt⟩ hwf

/-- Claim C9: upsert semantics on the remote mapping store (writes
succeeding).  Persisting (scope, token) → A twice leaves exactly one remote
record carrying the token, with value A — no duplicate; persisting A then B
leaves exactly one record with value B, and the immediately following Resolve
on the same scope and token returns B (last write wins). -/
theorem c9_upsert_semantics (st : AppState) (qr A B : String)
    (s1 s2 t2 : SaveResult)
    (hconf : st.supabaseConfigured = true) (hwf : remoteWF st.remote)
    (hB : B ≠ "")
    (hs1 : s1 = saveQRCodeMapping (fun _ => none) st qr A)
    (hs2 : s2 = saveQRCodeMapping (fun _ => none) s1.state qr A)
    (ht2 : t2 = saveQRCodeMapping (fun _ => none) s1.state qr B) :
    (s2.state.remote.filter fun r => r.qr_code_id == qr) =
      [⟨qr, A, eventIdOrNull st.currentEventId⟩] ∧
    (t2.state.remote.filter fun r => r.qr_code_id == qr) =
      [⟨qr, B, eventIdOrNull st.currentEventId⟩] ∧
    getMemberIdFromQRCode none t2.state qr = some B := by
  have hB2 : (B == "") = false := by simpa using hB
  subst hs1 hs2 ht2
  rw [saveQRCodeMapping_none_state st qr A hconf]
  have hwfA : remoteWF
      (upsertQrMapping st.remote ⟨qr, A, eventIdOrNull (getCurrentEventId st)⟩) :=
    remoteWF_upsertQrMapping st.remote _ hwf
  have hA2 := saveQRCodeMapping_none_state
    { st with localMappings := localUpsert st.localMappings qr A,
              remote := upsertQrMapping st.remote
                ⟨qr, A, eventIdOrNull (getCurrentEventId st)⟩ } qr A hconf
  have hB3 := saveQRCodeMapping_none_state
    { st with localMappings := localUpsert st.localMappings qr A,
              remote := upsertQrMapping st.remote
                ⟨qr, A, eventIdOrNull (getCurrentEventId st)⟩ } qr B hconf
  refine ⟨?_, ?_, ?_⟩
  · rw [hA2]
    exact filter_upsert_key _ qr A _ hwfA
  · rw [hB3]
    exact filter_upsert_key _ qr B _ hwfA
  · rw [hB3]
    exact getMemberId_remote_hit _ qr
      ⟨qr, B, eventIdOrNull st.currentEventId⟩ hconf
      (scopedMatches_upsert
        { st with localMappings := localUpsert st.localMappings qr A,
                  remote := upsertQrMapping st.remote
                    ⟨qr, A, eventIdOrNull (getCurrentEventId st)⟩ } qr B
        (localUpsert
          (localUpsert st.localMappings qr A) qr B) hwfA) hB2

/-- Claim C9 (witness): concrete double-persist and overwrite-then-resolve
run on an initially empty store. -/
theorem c9_upsert_semantics_witness :
    ((saveQRCodeMapping (fun _ => none)
        (saveQRCodeMapping (fun _ => none)
          ⟨true, "evt-1", [], [], []⟩ "SURPLUS-001" "m-42").state
        "SURPLUS-001" "m-42").state.remote.filter
      fun r => r.qr_code_id == "SURPLUS-001") =
      [⟨"SURPLUS-001", "m-42", some "evt-1"⟩] ∧
    ((saveQRCodeMapping (fun _ => none)
        (saveQRCodeMapping (fun _ => none)
          ⟨true, "evt-1", [], [], []⟩ "SURPLUS-001" "m-42").state
        "SURPLUS-001" "m-43").state.remote.filter
      fun r => r.qr_code_id == "SURPLUS-001") =
      [⟨"SURPLUS-001", "m-43", some "evt-1"⟩] ∧
    getMemberIdFromQRCode none
      (saveQRCodeMapping (fun _ => none)
        (saveQRCodeMapping (fun _ => none)
          ⟨true, "evt-1", [], [], []⟩ "SURPLUS-001" "m-42").state
        "SURPLUS-001" "m-43").state "SURPLUS-001" = some "m-43" :=
  c9_upsert_semantics ⟨true, "evt-1", [], [], []⟩ "SURPLUS-001" "m-42" "m-43"
    _ _ _ rfl (by simp [remoteWF]) (by decide) rfl rfl rfl

/-- Claim C10: implicit scope coupling of the member lookup.  Whenever, at
every await point, either no current event is selected (getTajneedMembers
then returns the empty list) or every member record visible to the device
belongs to a different event than the current one, findMemberByQRCodeId
returns null — with no assumption on the mapping stores, so this holds even
when a valid token→member mapping exists remotely or locally. -/
theorem c10_event_scope_coupling (w : World) (qrCodeId : String)
    (h : ∀ t, (w.snap t).currentEventId = "" ∨
      ∀ m ∈ (w.snap t).members, m.eventId ≠ (w.snap t).currentEventId) :
    (findMemberByQRCodeId w qrCodeId).member = none := by
  have hm : ∀ t, getTajneedMembers (w.snap t) = [] := by
    intro t
    rcases h t with h1 | h2
    · simp [getTajneedMembers, getCurrentEventId, h1]
    · unfold getTajneedMembers getCurrentEventId
      by_cases hev : (((w.snap t).currentEventId) == "") = true
      · rw [if_pos hev]
      · rw [if_neg hev, List.filter_eq_nil_iff]
        intro m hmem
        simp [h2 m hmem]
  simp only [findMemberByQRCodeId, hm, List.find?_nil]
  cases hres : getMemberIdFromQRCode (w.readErr 1) (w.snap 1) qrCodeId <;>
    simp [hres]

/-- Claim C10 (witness): a token with a valid mapping in both the remote
table and the local cache, pointing at an existing member of event "evtA",
is not found while the device's current event is "evtB". -/
theorem c10_event_scope_coupling_witness :
    (findMemberByQRCodeId
      ⟨fun _ => ⟨true, "evtB", [("X", "m-42")], [⟨"X", "m-42", some "evtA"⟩],
        [⟨"m-42", "evtA", "n", "t", "r", "j", "c"⟩]⟩, fun _ => none⟩
      "X").member = none :=
  c10_event_scope_coupling _ "X"
    (fun _ => Or.inr (by
      show ∀ m ∈ [(⟨"m-42", "evtA", "n", "t", "r", "j", "c"⟩ : TajneedMember)],
        m.eventId ≠ "evtB"
      decide))
